import Mathlib

/-!
Shallow embedding of the event translation and dispatch engine of
`src/controls/base/sysproc.rs` (native-windows-gui).  Handles (HWND) are
modelled as `Nat`, machine words (WPARAM/LPARAM/UINT) as `Nat`, and the
per-handle window-data registry (`get_handle_data`) as a function
`Nat → Option WindowData`.
-/

namespace Sysproc

/-! ### Host message and notification constants (winapi crate values) -/

def WM_USER : Nat := 0x0400
def WM_SIZING : Nat := 0x0214
def WM_SIZE : Nat := 0x0005
def WM_LBUTTONDOWN : Nat := 0x0201
def WM_LBUTTONUP : Nat := 0x0202
def WM_RBUTTONDOWN : Nat := 0x0204
def WM_RBUTTONUP : Nat := 0x0205
def WM_MBUTTONDOWN : Nat := 0x0207
def WM_MBUTTONUP : Nat := 0x0208
def WM_COMMAND : Nat := 0x0111
def WM_ACTIVATEAPP : Nat := 0x001C

def BN_CLICKED : Nat := 0
def BN_SETFOCUS : Nat := 6
def BN_KILLFOCUS : Nat := 7

def EN_SETFOCUS : Nat := 0x0100
def EN_KILLFOCUS : Nat := 0x0200
def EN_CHANGE : Nat := 0x0300
def EN_MAXTEXT : Nat := 0x0501

def CBN_SELCHANGE : Nat := 1
def CBN_SETFOCUS : Nat := 3
def CBN_KILLFOCUS : Nat := 4
def CBN_DROPDOWN : Nat := 7
def CBN_CLOSEUP : Nat := 8

def STN_CLICKED : Nat := 0

/-- `NWG_DESTROY_NOTICE` from sysproc.rs: message sent before the actual
destruction of a control; equals `WM_USER`. -/
def NWG_DESTROY_NOTICE : Nat := WM_USER

/-- Modelled from the spec: the repository's `constants` module is not among
the sources; the mouse modifier/button masks it re-exports are the host's
standard `MK_*` bit masks (spec §4.1: "decode a modifier mask (ctrl/shift)
and a button mask (left/middle/right) from the packed word"). -/
def BTN_MOUSE_LEFT : Nat := 0x0001

/-- Modelled from the spec: see `BTN_MOUSE_LEFT`. -/
def BTN_MOUSE_RIGHT : Nat := 0x0002

/-- Modelled from the spec: see `BTN_MOUSE_LEFT`. -/
def BTN_MOUSE_MIDDLE : Nat := 0x0010

/-- Modelled from the spec: see `BTN_MOUSE_LEFT`. -/
def MOD_MOUSE_SHIFT : Nat := 0x0004

/-- Modelled from the spec: see `BTN_MOUSE_LEFT`. -/
def MOD_MOUSE_CTRL : Nat := 0x0008

/-- winapi `HIWORD` applied to `w as u32`: the high 16 bits of the low
32 bits of the machine word. -/
def HIWORD (w : Nat) : Nat := ((w % 0x100000000) >>> 16) &&& 0xFFFF

/-- winapi `GET_X_LPARAM`: low 16 bits of the packed coordinate word,
sign-extended (as i16 → i32). -/
def GET_X_LPARAM (l : Nat) : Int :=
  let lo := l % 0x10000
  if lo < 0x8000 then (lo : Int) else (lo : Int) - 0x10000

/-- winapi `GET_Y_LPARAM`: bits 16..31 of the packed coordinate word,
sign-extended (as i16 → i32). -/
def GET_Y_LPARAM (l : Nat) : Int :=
  let hi := (l >>> 16) % 0x10000
  if hi < 0x8000 then (hi : Int) else (hi : Int) - 0x10000

/-! ### Data model -/

/-- `Event` from events.rs, as used by sysproc.rs (the spec's SemanticEvent
closed set). -/
inductive Event where
  | MouseUp
  | MouseDown
  | Focus
  | Click
  | ValueChanged
  | MaxValue
  | Removed
  | Resize
  | MenuOpen
  | MenuClose
  | SelectionChanged
  | Unknown
deriving DecidableEq, Repr

/-- Modelled from the spec: `ControlType` lives in the repository's missing
`constants` module.  Variants are the ones `map_command` matches on
(Button, CheckBox, GroupBox, RadioButton, TextInput, ComboBox, Label); the
spec's data-model ellipsis ("Button, CheckBox, …, Label, …") indicates at
least one further kind, modelled here as `Window`, which falls into the
catch-all arm of `map_command`. -/
inductive ControlType where
  | Button
  | CheckBox
  | GroupBox
  | RadioButton
  | TextInput
  | ComboBox
  | Label
  | Window
deriving DecidableEq, Repr

/-- The fields of `WindowData` that sysproc.rs reads (the spec's
ControlTreeEntry): the owning identifier `id`, the control type tag
`_type`, and the callback table mapping each event to the ordered list of
registered callbacks.  Callbacks are identified abstractly by a `Nat`
registration key; the `controls` field (the shared control tree reference)
plays no role in which callbacks run or in what order, so it is omitted. -/
structure WindowData where
  id : Nat
  _type : ControlType
  callbacks : Event → List Nat

/-- The registry behind `get_handle_data`: resolves a native handle to the
control's `WindowData`, if it was initialized and not yet freed. -/
def Registry : Type := Nat → Option WindowData

/-! ### Payload extractors -/

/-- The button implied by which specific mouse up/down message kind fired:
the `match msg` block inside `handle_btn`. -/
def impliedBtn (msg : Nat) : Nat :=
  if msg = WM_LBUTTONUP ∨ msg = WM_LBUTTONDOWN then BTN_MOUSE_LEFT
  else if msg = WM_RBUTTONUP ∨ msg = WM_RBUTTONDOWN then BTN_MOUSE_RIGHT
  else if msg = WM_MBUTTONUP ∨ msg = WM_MBUTTONDOWN then BTN_MOUSE_MIDDLE
  else 0

/-- `handle_btn` from sysproc.rs: decode (x, y, btn, modifiers) from a
mouse button message's parameters. -/
def handle_btn (msg : Nat) (w : Nat) (l : Nat) : Int × Int × Nat × Nat :=
  let x := GET_X_LPARAM l
  let y := GET_Y_LPARAM l
  let modifiers := (w % 0x100000000) &&& (MOD_MOUSE_CTRL ||| MOD_MOUSE_SHIFT)
  let btn := ((w % 0x100000000) &&& (BTN_MOUSE_MIDDLE ||| BTN_MOUSE_RIGHT ||| BTN_MOUSE_LEFT))
      ||| impliedBtn msg
  (x, y, btn, modifiers)

/-- winapi `RECT`: four signed 32-bit fields (modelled as `Int`, the
arithmetic below reproduces the source's `as u32` casts explicitly). -/
structure RECT where
  left : Int
  top : Int
  right : Int
  bottom : Int

/-- `handle_sizing` from sysproc.rs.  The `rect` argument stands for the
rectangle the source obtains: for `WM_SIZING` the one behind the LPARAM
pointer, for `WM_SIZE` the one returned by `GetWindowRect`.  Any other
message kind panics in the source, modelled as `none`.  The width/height
computations `(r.right-r.left) as u32` are modelled as reduction modulo
2^32 (i32 wrapping subtraction followed by the bit-preserving cast). -/
def handle_sizing (rect : RECT) (msg : Nat) : Option (Int × Int × Nat × Nat) :=
  let r : Option RECT :=
    if msg = WM_SIZING then some rect
    else if msg = WM_SIZE then some rect
    else none
  r.map (fun r =>
    (r.left, r.top, ((r.right - r.left) % (4294967296 : Int)).toNat,
      ((r.bottom - r.top) % (4294967296 : Int)).toNat))

/-- The index of the first zero code unit of the buffer, defaulting to the
buffer length: `buffer.iter().enumerate().find(|&(index, i)| *i == 0)
.unwrap_or((buffer_length, &0)).0` in `get_combobox_selection`. -/
def firstZeroIdx (buffer : List Nat) : Nat :=
  (buffer.findIdx? (fun i => i == 0)).getD buffer.length

/-- UTF-16 decoding as performed by `OsString::from_wide` followed by
`OsString::into_string`: succeeds exactly when the code-unit sequence has
no unpaired surrogate, producing the decoded characters. -/
def utf16Decode : List Nat → Option (List Char)
  | [] => some []
  | u :: rest =>
    if u < 0xD800 ∨ (0xDFFF < u ∧ u < 0x10000) then
      (utf16Decode rest).map (fun cs => Char.ofNat u :: cs)
    else if 0xD800 ≤ u ∧ u < 0xDC00 then
      match rest with
      | [] => none
      | v :: rest2 =>
        if 0xDC00 ≤ v ∧ v < 0xE000 then
          (utf16Decode rest2).map
            (fun cs => Char.ofNat (0x10000 + (u - 0xD800) * 0x400 + (v - 0xDC00)) :: cs)
        else none
    else none

/-- `get_combobox_selection` from sysproc.rs.  `selected` stands for the
control's reply to `CB_GETCURSEL` and `buffer` for the code units the
control wrote in reply to `CB_GETLBTEXT` (its length being the reply to
`CB_GETLBTEXTLEN`).  The buffer is truncated at the first zero unit and
decoded; a decode failure substitutes the placeholder. -/
def get_combobox_selection (selected : Nat) (buffer : List Nat) : Nat × String :=
  let end_index := firstZeroIdx buffer
  let text :=
    match utf16Decode (buffer.take end_index) with
    | some cs => String.mk cs
    | none => "ERROR!"
  (selected, text)

/-! ### Command disambiguator and event classifier -/

/-- The body of `map_command` after its two let bindings
(`command = HIWORD(w as u32)`, `owner` recovered by transmuting the
LPARAM): the type-scoped sub-code table. -/
def command_table (reg : Registry) (handle command owner : Nat) : List Event × Nat :=
  match reg owner with
  | none => ([Event.Unknown], handle)
  | some data =>
    match data._type with
    | ControlType.Button | ControlType.CheckBox | ControlType.GroupBox
    | ControlType.RadioButton =>
      if command = BN_SETFOCUS ∨ command = BN_KILLFOCUS then ([Event.Focus], owner)
      else if command = BN_CLICKED then ([Event.Click], owner)
      else ([Event.Unknown], handle)
    | ControlType.TextInput =>
      if command = EN_SETFOCUS ∨ command = EN_KILLFOCUS then ([Event.Focus], owner)
      else if command = EN_CHANGE then ([Event.ValueChanged], owner)
      else if command = EN_MAXTEXT then ([Event.MaxValue], owner)
      else ([Event.Unknown], handle)
    | ControlType.ComboBox =>
      if command = CBN_SETFOCUS ∨ command = CBN_KILLFOCUS then ([Event.Focus], owner)
      else if command = CBN_CLOSEUP then ([Event.MenuClose], owner)
      else if command = CBN_DROPDOWN then ([Event.MenuOpen], owner)
      else if command = CBN_SELCHANGE then
        ([Event.ValueChanged, Event.SelectionChanged], owner)
      else ([Event.Unknown], handle)
    | ControlType.Label =>
      if command = STN_CLICKED then ([Event.Click], owner)
      else ([Event.Unknown], handle)
    | _ => ([Event.Unknown], handle)

/-- `map_command` from sysproc.rs: resolve the overloaded `WM_COMMAND`
notification.  `handle` is the nominal target, the originating (owner)
handle is recovered from the LPARAM `l`, and `HIWORD(w)` is the command
sub-code; the sub-code table is selected by the owner's control type. -/
def map_command (reg : Registry) (handle evt w l : Nat) : List Event × Nat :=
  command_table reg handle (HIWORD w) l

/-- `map_system_event` from sysproc.rs: classify a raw message into the
semantic event list and the resolved target handle. -/
def map_system_event (reg : Registry) (handle evt w l : Nat) : List Event × Nat :=
  if evt = WM_COMMAND then map_command reg handle evt w l
  else if evt = WM_LBUTTONUP ∨ evt = WM_RBUTTONUP ∨ evt = WM_MBUTTONUP then
    ([Event.MouseUp], handle)
  else if evt = WM_LBUTTONDOWN ∨ evt = WM_RBUTTONDOWN ∨ evt = WM_MBUTTONDOWN then
    ([Event.MouseDown], handle)
  else if evt = WM_ACTIVATEAPP then ([Event.Focus], handle)
  else if evt = WM_SIZING ∨ evt = WM_SIZE then ([Event.Resize], handle)
  else if evt = NWG_DESTROY_NOTICE then ([Event.Removed], handle)
  else ([Event.Unknown], handle)

/-! ### Callback dispatcher -/

/-- The Focus arm of `dispatch_event`: the boolean payload handed to a
Focus callback, as a function of the raw message kind and its first
parameter.  The `unreachable!()` arm is modelled as `none`. -/
def dispatch_event_focus (msg w : Nat) : Option Bool :=
  if msg = WM_COMMAND then
    let hw := HIWORD w
    some (decide (hw = BN_SETFOCUS ∨ hw = EN_SETFOCUS ∨ hw = CBN_SETFOCUS))
  else if msg = WM_ACTIVATEAPP then some (decide (w = 1))
  else none

/-- `handle_events` from sysproc.rs, observed as its invocation trace: the
list of (event, callback registration key) pairs in the order the
callbacks are invoked.  The classifier resolves (events, handle); if the
resolved handle has no window data nothing runs, otherwise for each event
in classification order every callback registered under that event runs in
registration order. -/
def handle_events (reg : Registry) (hwnd msg w l : Nat) : List (Event × Nat) :=
  let res := map_system_event reg hwnd msg w l
  match reg res.2 with
  | none => []
  | some data => res.1.flatMap (fun e => (data.callbacks e).map (fun k => (e, k)))

/-! ### Sample registries used by witnesses -/

/-- A ComboBox registered at handle 5 with two ValueChanged callbacks and
one SelectionChanged callback. -/
def dataCombo : WindowData :=
  ⟨100, ControlType.ComboBox,
    fun e =>
      if e = Event.ValueChanged then [10, 11]
      else if e = Event.SelectionChanged then [12]
      else []⟩

def regCombo : Registry := fun h => if h = 5 then some dataCombo else none

/-- A TextInput registered at handle 5. -/
def dataText : WindowData := ⟨200, ControlType.TextInput, fun _ => []⟩

def regText : Registry := fun h => if h = 5 then some dataText else none

/-- A Button registered at handle 5. -/
def dataBtn : WindowData := ⟨300, ControlType.Button, fun _ => []⟩

def regBtn : Registry := fun h => if h = 5 then some dataBtn else none

/-- The empty registry: no control's window data was ever initialized. -/
def regNone : Registry := fun _ => none

/-- The sub-codes a control type's table matches: the disjunction of the
non-catch-all arm conditions of `command_table` for that type.  A
(`_type`, sub-code) pair outside this predicate falls to a
`([Event.Unknown], handle)` arm. -/
def matchedCommand : ControlType → Nat → Prop
  | ControlType.Button, c | ControlType.CheckBox, c | ControlType.GroupBox, c
  | ControlType.RadioButton, c =>
      c = BN_SETFOCUS ∨ c = BN_KILLFOCUS ∨ c = BN_CLICKED
  | ControlType.TextInput, c =>
      c = EN_SETFOCUS ∨ c = EN_KILLFOCUS ∨ c = EN_CHANGE ∨ c = EN_MAXTEXT
  | ControlType.ComboBox, c =>
      c = CBN_SETFOCUS ∨ c = CBN_KILLFOCUS ∨ c = CBN_CLOSEUP ∨ c = CBN_DROPDOWN ∨
        c = CBN_SELCHANGE
  | ControlType.Label, c => c = STN_CLICKED
  | ControlType.Window, _ => False

/-! ### Helper lemmas -/

theorem or_and_absorb (a m : Nat) : (a ||| m) &&& m = m := by
  apply Nat.eq_of_testBit_eq
  intro i
  rw [Nat.testBit_and, Nat.testBit_or]
  cases m.testBit i <;> simp

theorem map_command_fst_ne_resize (reg : Registry) (handle evt w l : Nat) :
    (map_command reg handle evt w l).1 ≠ [Event.Resize] := by
  unfold map_command command_table
  cases reg l with
  | none => simp
  | some data =>
    rcases data with ⟨i, ty, cb⟩
    cases ty <;> dsimp only <;> first | (split_ifs <;> simp) | simp

/-! ### Claims -/

/-- Claim C5: for every raw mouse button-up or button-down message, the
extracted button mask includes the mask bit of the button implied by the
message kind (a nonzero mask), for all parameter words, and the x, y and
ctrl/shift modifier components are the plain decodings of the parameters. -/
theorem c5_mouse_button_mask (msg w l : Nat)
    (hmsg : msg = WM_LBUTTONUP ∨ msg = WM_LBUTTONDOWN ∨ msg = WM_RBUTTONUP ∨
      msg = WM_RBUTTONDOWN ∨ msg = WM_MBUTTONUP ∨ msg = WM_MBUTTONDOWN) :
    (handle_btn msg w l).2.2.1 &&& impliedBtn msg = impliedBtn msg ∧
    impliedBtn msg ≠ 0 ∧
    (handle_btn msg w l).1 = GET_X_LPARAM l ∧
    (handle_btn msg w l).2.1 = GET_Y_LPARAM l ∧
    (handle_btn msg w l).2.2.2 =
      (w % 0x100000000) &&& (MOD_MOUSE_CTRL ||| MOD_MOUSE_SHIFT) := by
  refine ⟨?_, ?_, rfl, rfl, rfl⟩
  · exact or_and_absorb
      ((w % 0x100000000) &&& (BTN_MOUSE_MIDDLE ||| BTN_MOUSE_RIGHT ||| BTN_MOUSE_LEFT))
      (impliedBtn msg)
  · rcases hmsg with h | h | h | h | h | h <;> subst h <;> decide

theorem c5_mouse_button_mask_witness :
    (handle_btn WM_LBUTTONDOWN 0 0).2.2.1 &&& impliedBtn WM_LBUTTONDOWN =
      impliedBtn WM_LBUTTONDOWN ∧
    impliedBtn WM_LBUTTONDOWN ≠ 0 ∧
    (handle_btn WM_LBUTTONDOWN 0 0).1 = GET_X_LPARAM 0 ∧
    (handle_btn WM_LBUTTONDOWN 0 0).2.1 = GET_Y_LPARAM 0 ∧
    (handle_btn WM_LBUTTONDOWN 0 0).2.2.2 =
      (0 % 0x100000000) &&& (MOD_MOUSE_CTRL ||| MOD_MOUSE_SHIFT) :=
  c5_mouse_button_mask WM_LBUTTONDOWN 0 0 (by decide)

/-- Claim C6: the resize payload is (left, top, right-left, bottom-top)
for both resize message kinds; the rectangle (10,10,110,60) yields
(10,10,100,50); and in-progress and completed resize messages over the
same rectangle yield identical payloads. -/
theorem c6_resize_payload :
    (∀ r : RECT, handle_sizing r WM_SIZING = handle_sizing r WM_SIZE) ∧
    handle_sizing ⟨10, 10, 110, 60⟩ WM_SIZE = some (10, 10, 100, 50) ∧
    (∀ (r : RECT) (msg : Nat), (msg = WM_SIZING ∨ msg = WM_SIZE) →
      r.left ≤ r.right → r.top ≤ r.bottom →
      r.right - r.left < 4294967296 → r.bottom - r.top < 4294967296 →
      handle_sizing r msg =
        some (r.left, r.top, (r.right - r.left).toNat, (r.bottom - r.top).toNat)) := by
  refine ⟨fun r => rfl, by decide, ?_⟩
  intro r msg hmsg h1 h2 h3 h4
  have e3 : (r.right - r.left) % (4294967296 : Int) = r.right - r.left :=
    Int.emod_eq_of_lt (by omega) h3
  have e4 : (r.bottom - r.top) % (4294967296 : Int) = r.bottom - r.top :=
    Int.emod_eq_of_lt (by omega) h4
  rcases hmsg with h | h <;> subst h <;> simp [handle_sizing, e3, e4]

theorem c6_resize_payload_witness :
    handle_sizing ⟨0, 0, 3, 2⟩ WM_SIZING = some (0, 0, 3, 2) := by
  have h := c6_resize_payload.2.2 ⟨0, 0, 3, 2⟩ WM_SIZING (Or.inl rfl)
    (by decide) (by decide) (by decide) (by decide)
  simpa using h

/-- Claim C7: the resize extractor hits its fatal branch exactly when the
message kind is neither `WM_SIZING` nor `WM_SIZE`; whenever the classifier
mapped the message to Resize, the fatal branch is unreachable. -/
theorem c7_sizing_contract (r : RECT) (msg : Nat) :
    (handle_sizing r msg = none ↔ (msg ≠ WM_SIZING ∧ msg ≠ WM_SIZE)) ∧
    (∀ (reg : Registry) (hwnd w l : Nat),
      (map_system_event reg hwnd msg w l).1 = [Event.Resize] →
      handle_sizing r msg ≠ none) := by
  constructor
  · unfold handle_sizing
    split_ifs with h1 h2
    · simp [h1]
    · simp [h1, h2]
    · simp [h1, h2]
  · intro reg hwnd w l hmap
    unfold map_system_event at hmap
    split_ifs at hmap with e1 e2 e3 e4 e5 e6
    · exact absurd hmap (map_command_fst_ne_resize reg hwnd msg w l)
    · simp at hmap
    · simp at hmap
    · simp at hmap
    · rcases e5 with h | h <;> subst h <;> simp [handle_sizing]
    · simp at hmap
    · simp at hmap

theorem c7_sizing_contract_witness : handle_sizing ⟨1, 2, 3, 4⟩ WM_SIZE ≠ none :=
  (c7_sizing_contract ⟨1, 2, 3, 4⟩ WM_SIZE).2 regNone 0 0 0 (by decide)

/-- Claim C1: a generic command from a registered ComboBox carrying the
selection-changed sub-code classifies to exactly
[ValueChanged, SelectionChanged] in that order, and dispatch invokes all
ValueChanged callbacks (in registration order) before any
SelectionChanged callback. -/
theorem c1_combobox_selchange (reg : Registry) (hwnd w l : Nat) (data : WindowData)
    (hreg : reg l = some data) (hty : data._type = ControlType.ComboBox)
    (hcmd : HIWORD w = CBN_SELCHANGE) :
    (map_system_event reg hwnd WM_COMMAND w l).1 =
      [Event.ValueChanged, Event.SelectionChanged] ∧
    handle_events reg hwnd WM_COMMAND w l =
      (data.callbacks Event.ValueChanged).map (fun k => (Event.ValueChanged, k)) ++
      (data.callbacks Event.SelectionChanged).map (fun k => (Event.SelectionChanged, k)) := by
  have hmap : map_system_event reg hwnd WM_COMMAND w l =
      ([Event.ValueChanged, Event.SelectionChanged], l) := by
    simp [map_system_event, map_command, command_table, hreg, hty, hcmd,
      CBN_SETFOCUS, CBN_KILLFOCUS, CBN_CLOSEUP, CBN_DROPDOWN, CBN_SELCHANGE]
  refine ⟨by rw [hmap], ?_⟩
  simp only [handle_events]
  rw [hmap]
  simp [hreg]

theorem c1_combobox_selchange_witness :
    (map_system_event regCombo 7 WM_COMMAND 65536 5).1 =
      [Event.ValueChanged, Event.SelectionChanged] ∧
    handle_events regCombo 7 WM_COMMAND 65536 5 =
      (dataCombo.callbacks Event.ValueChanged).map (fun k => (Event.ValueChanged, k)) ++
      (dataCombo.callbacks Event.SelectionChanged).map
        (fun k => (Event.SelectionChanged, k)) :=
  c1_combobox_selchange regCombo 7 65536 5 dataCombo rfl rfl (by decide)

/-- Claim C2: sub-code tables are scoped by control type: a TextInput
receiving the max-length-reached sub-code classifies to MaxValue and the
change sub-code to ValueChanged, while a Button-family control receiving
those same raw sub-code values classifies to Unknown. -/
theorem c2_subcode_tables_scoped (reg : Registry) (handle evt l : Nat)
    (data : WindowData) (hreg : reg l = some data) :
    (data._type = ControlType.TextInput → ∀ w, HIWORD w = EN_MAXTEXT →
      map_command reg handle evt w l = ([Event.MaxValue], l)) ∧
    (data._type = ControlType.TextInput → ∀ w, HIWORD w = EN_CHANGE →
      map_command reg handle evt w l = ([Event.ValueChanged], l)) ∧
    ((data._type = ControlType.Button ∨ data._type = ControlType.CheckBox ∨
      data._type = ControlType.GroupBox ∨ data._type = ControlType.RadioButton) →
      ∀ w, (HIWORD w = EN_MAXTEXT ∨ HIWORD w = EN_CHANGE) →
      map_command reg handle evt w l = ([Event.Unknown], handle)) := by
  refine ⟨?_, ?_, ?_⟩
  · intro hty w hw
    simp [map_command, command_table, hreg, hty, hw, EN_SETFOCUS, EN_KILLFOCUS,
      EN_CHANGE, EN_MAXTEXT]
  · intro hty w hw
    simp [map_command, command_table, hreg, hty, hw, EN_SETFOCUS, EN_KILLFOCUS,
      EN_CHANGE, EN_MAXTEXT]
  · intro hty w hw
    rcases hty with h | h | h | h <;> rcases hw with h2 | h2 <;>
      simp [map_command, command_table, hreg, h, h2, BN_SETFOCUS, BN_KILLFOCUS,
        BN_CLICKED, EN_MAXTEXT, EN_CHANGE]

theorem c2_subcode_tables_scoped_witness :
    map_command regText 7 WM_COMMAND (EN_MAXTEXT <<< 16) 5 = ([Event.MaxValue], 5) ∧
    map_command regBtn 7 WM_COMMAND (EN_MAXTEXT <<< 16) 5 = ([Event.Unknown], 7) :=
  ⟨(c2_subcode_tables_scoped regText 7 WM_COMMAND 5 dataText rfl).1 rfl
      (EN_MAXTEXT <<< 16) (by decide),
   (c2_subcode_tables_scoped regBtn 7 WM_COMMAND 5 dataBtn rfl).2.2 (Or.inl rfl)
      (EN_MAXTEXT <<< 16) (Or.inl (by decide))⟩

/-- Claim C3: a generic command whose originating control has no registered
window data classifies to exactly [Unknown], and, given that Unknown
carries no registrable callbacks (modelled from the spec, §7(b)), the
whole dispatch invokes zero callbacks. -/
theorem c3_unregistered_command (reg : Registry) (hwnd evt w l : Nat)
    (hreg : reg l = none)
    (hwf : ∀ h d, reg h = some d → d.callbacks Event.Unknown = []) :
    map_command reg hwnd evt w l = ([Event.Unknown], hwnd) ∧
    handle_events reg hwnd WM_COMMAND w l = [] := by
  constructor
  · simp [map_command, command_table, hreg]
  · have h2 : map_system_event reg hwnd WM_COMMAND w l = ([Event.Unknown], hwnd) := by
      simp [map_system_event, map_command, command_table, hreg]
    simp only [handle_events]
    rw [h2]
    cases hd : reg hwnd with
    | none => simp [hd]
    | some d => simp [hd, hwf hwnd d hd]

theorem c3_unregistered_command_witness :
    map_command regNone 0 WM_COMMAND 0 0 = ([Event.Unknown], 0) ∧
    handle_events regNone 0 WM_COMMAND 0 0 = [] :=
  c3_unregistered_command regNone 0 WM_COMMAND 0 0 rfl
    (by intro h d hd; simp [regNone] at hd)

/-- Claim C4 as stated is false: a concrete generic-command message from a
registered Button control with an unmatched sub-code (99) resolves to the
nominal target handle 7, not the originating handle 5 recovered from the
parameters. -/
theorem c4_counterexample :
    (map_command regBtn 7 WM_COMMAND (99 <<< 16) 5).2 = 7 ∧ (7 : Nat) ≠ 5 ∧
    regBtn 5 = some dataBtn := ⟨by decide, by decide, rfl⟩

/-- Claim C4 (amended): the resolved target is the originating control
handle whenever classification produced a non-Unknown event list; when it
produced [Unknown] (absent window data or unmatched sub-code) the nominal
target handle is kept instead. -/
theorem c4_resolved_target_amended (reg : Registry) (handle evt w l : Nat) :
    ((map_command reg handle evt w l).1 ≠ [Event.Unknown] →
      (map_command reg handle evt w l).2 = l) ∧
    ((map_command reg handle evt w l).1 = [Event.Unknown] →
      (map_command reg handle evt w l).2 = handle) := by
  unfold map_command command_table
  cases reg l with
  | none => simp
  | some data =>
    rcases data with ⟨i, ty, cb⟩
    cases ty <;> dsimp only <;> first | (split_ifs <;> simp) | simp

theorem c4_resolved_target_amended_witness :
    (map_command regCombo 7 WM_COMMAND 65536 5).2 = 5 :=
  (c4_resolved_target_amended regCombo 7 WM_COMMAND 65536 5).1 (by decide)

/-- Claim C8 as stated is false for the application-activation source: the
code compares the first parameter against 1 for equality rather than
truncating to its low bit, so parameter 3 (whose low bit is 1) yields a
false focus payload. -/
theorem c8_counterexample :
    dispatch_event_focus WM_ACTIVATEAPP 3 = some false ∧ 3 % 2 = 1 := by decide

/-- Claim C8 (amended): for a Focus event sourced from a generic command,
the payload is true exactly on the per-family set-focus sub-codes and
false exactly on the kill-focus sub-codes; for the application-activation
message the payload is true iff the first parameter equals exactly 1 (not
its low bit). -/
theorem c8_focus_payload_amended :
    (∀ w : Nat, dispatch_event_focus WM_ACTIVATEAPP w = some (decide (w = 1))) ∧
    (∀ (reg : Registry) (handle evt w l : Nat),
      (map_command reg handle evt w l).1 = [Event.Focus] →
      ((dispatch_event_focus WM_COMMAND w = some true ↔
        (HIWORD w = BN_SETFOCUS ∨ HIWORD w = EN_SETFOCUS ∨ HIWORD w = CBN_SETFOCUS)) ∧
       (dispatch_event_focus WM_COMMAND w = some false ↔
        (HIWORD w = BN_KILLFOCUS ∨ HIWORD w = EN_KILLFOCUS ∨
          HIWORD w = CBN_KILLFOCUS)))) := by
  constructor
  · intro w
    simp [dispatch_event_focus, WM_ACTIVATEAPP, WM_COMMAND]
  · intro reg handle evt w l hmap
    have hc : HIWORD w = BN_SETFOCUS ∨ HIWORD w = BN_KILLFOCUS ∨
        HIWORD w = EN_SETFOCUS ∨ HIWORD w = EN_KILLFOCUS ∨
        HIWORD w = CBN_SETFOCUS ∨ HIWORD w = CBN_KILLFOCUS := by
      unfold map_command command_table at hmap
      cases hr : reg l with
      | none => rw [hr] at hmap; simp at hmap
      | some data =>
        rw [hr] at hmap
        rcases data with ⟨i, ty, cb⟩
        cases ty <;> dsimp only at hmap <;>
          first
          | (split_ifs at hmap with h1 h2 h3 h4 <;> simp at hmap <;> tauto)
          | simp at hmap
    have hd : dispatch_event_focus WM_COMMAND w =
        some (decide (HIWORD w = BN_SETFOCUS ∨ HIWORD w = EN_SETFOCUS ∨
          HIWORD w = CBN_SETFOCUS)) := by
      simp [dispatch_event_focus]
    rcases hc with h | h | h | h | h | h <;> rw [hd, h] <;> decide

theorem c8_focus_payload_amended_witness :
    dispatch_event_focus WM_ACTIVATEAPP 1 = some (decide ((1 : Nat) = 1)) :=
  c8_focus_payload_amended.1 1

/-- Claim C9: combo-box selection text extraction returns the empty string
(not the placeholder) for an empty selected label; the returned text is
the decoded buffer truncated at the first zero code unit; and the visible
placeholder is substituted exactly when decoding fails. -/
theorem c9_combobox_text (s : Nat) (buffer : List Nat) :
    (get_combobox_selection s []).2 = "" ∧
    (get_combobox_selection s []).2 ≠ "ERROR!" ∧
    (∀ cs, utf16Decode (buffer.take (firstZeroIdx buffer)) = some cs →
      (get_combobox_selection s buffer).2 = String.mk cs) ∧
    (utf16Decode (buffer.take (firstZeroIdx buffer)) = none →
      (get_combobox_selection s buffer).2 = "ERROR!") := by
  have h0 : (get_combobox_selection s []).2 = "" := rfl
  refine ⟨h0, ?_, ?_, ?_⟩
  · rw [h0]; decide
  · intro cs hcs
    simp [get_combobox_selection, hcs]
  · intro hn
    simp [get_combobox_selection, hn]

theorem c9_combobox_text_witness :
    (get_combobox_selection 0 [72, 105, 0, 99]).2 = String.mk ['H', 'i'] :=
  (c9_combobox_text 0 [72, 105, 0, 99]).2.2.1 ['H', 'i'] (by decide)

theorem command_table_cases (reg : Registry) (handle command owner : Nat) :
    ((command_table reg handle command owner).1.length = 1 ∨
     (command_table reg handle command owner).1 =
       [Event.ValueChanged, Event.SelectionChanged]) ∧
    ((command_table reg handle command owner).1.length = 2 ↔
      ∃ data, reg owner = some data ∧ data._type = ControlType.ComboBox ∧
        command = CBN_SELCHANGE) := by
  unfold command_table
  cases hr : reg owner with
  | none => simp
  | some data =>
    rcases data with ⟨i, ty, cb⟩
    cases ty <;> dsimp only <;>
      first
      | (split_ifs <;>
          simp_all [CBN_SETFOCUS, CBN_KILLFOCUS, CBN_CLOSEUP, CBN_DROPDOWN,
            CBN_SELCHANGE] <;>
          omega)
      | simp_all

theorem command_table_unknown_iff (reg : Registry) (handle command owner : Nat) :
    (command_table reg handle command owner).1 = [Event.Unknown] ↔
      ¬∃ data, reg owner = some data ∧ matchedCommand data._type command := by
  unfold command_table
  cases hr : reg owner with
  | none => simp
  | some data =>
    rcases data with ⟨i, ty, cb⟩
    cases ty <;> dsimp only <;>
      first
      | (split_ifs <;> simp_all [matchedCommand] <;> tauto)
      | simp_all [matchedCommand]

/-- Claim C10: the classifier always returns a non-empty event list of
length one or two; length two happens exactly for a generic command from a
registered ComboBox carrying the selection-changed sub-code; unmatched
message kinds yield exactly [Unknown]; and for a generic command the list
is exactly [Unknown] precisely when no registered originating control's
type-scoped table matches the sub-code (unregistered owner or unmatched
sub-code). -/
theorem c10_classifier_totality (reg : Registry) (hwnd msg w l : Nat) :
    (map_system_event reg hwnd msg w l).1 ≠ [] ∧
    ((map_system_event reg hwnd msg w l).1.length = 1 ∨
     (map_system_event reg hwnd msg w l).1.length = 2) ∧
    ((map_system_event reg hwnd msg w l).1.length = 2 ↔
      (msg = WM_COMMAND ∧ ∃ data, reg l = some data ∧
        data._type = ControlType.ComboBox ∧ HIWORD w = CBN_SELCHANGE)) ∧
    (msg ∉ ([WM_COMMAND, WM_LBUTTONUP, WM_RBUTTONUP, WM_MBUTTONUP, WM_LBUTTONDOWN,
        WM_RBUTTONDOWN, WM_MBUTTONDOWN, WM_ACTIVATEAPP, WM_SIZING, WM_SIZE,
        NWG_DESTROY_NOTICE] : List Nat) →
      (map_system_event reg hwnd msg w l).1 = [Event.Unknown]) ∧
    (msg = WM_COMMAND →
      ((map_system_event reg hwnd msg w l).1 = [Event.Unknown] ↔
        ¬∃ data, reg l = some data ∧ matchedCommand data._type (HIWORD w))) := by
  unfold map_system_event
  split_ifs with e1 e2 e3 e4 e5 e6
  · obtain ⟨hlen, hiff⟩ := command_table_cases reg hwnd (HIWORD w) l
    subst e1
    simp only [map_command]
    refine ⟨?_, ?_, ?_, ?_, ?_⟩
    · rcases hlen with h | h
      · intro hnil; rw [hnil] at h; simp at h
      · rw [h]; simp
    · rcases hlen with h | h
      · exact Or.inl h
      · right; rw [h]; rfl
    · rw [hiff]; simp
    · intro hmem; exact absurd (by simp) hmem
    · exact fun _ => command_table_unknown_iff reg hwnd (HIWORD w) l
  · exact ⟨by simp, Or.inl (by simp), by simp [e1],
      fun hmem => absurd (by rcases e2 with h | h | h <;> subst h <;> decide) hmem,
      fun hmsg => absurd hmsg e1⟩
  · exact ⟨by simp, Or.inl (by simp), by simp [e1],
      fun hmem => absurd (by rcases e3 with h | h | h <;> subst h <;> decide) hmem,
      fun hmsg => absurd hmsg e1⟩
  · exact ⟨by simp, Or.inl (by simp), by simp [e1],
      fun hmem => absurd (by subst e4; decide) hmem,
      fun hmsg => absurd hmsg e1⟩
  · exact ⟨by simp, Or.inl (by simp), by simp [e1],
      fun hmem => absurd (by rcases e5 with h | h <;> subst h <;> decide) hmem,
      fun hmsg => absurd hmsg e1⟩
  · exact ⟨by simp, Or.inl (by simp), by simp [e1],
      fun hmem => absurd (by subst e6; decide) hmem,
      fun hmsg => absurd hmsg e1⟩
  · exact ⟨by simp, Or.inl (by simp), by simp [e1], fun _ => rfl,
      fun hmsg => absurd hmsg e1⟩

theorem c10_classifier_totality_witness :
    (map_system_event regNone 0 999 0 0).1 = [Event.Unknown] ∧
    (map_system_event regBtn 7 WM_COMMAND (99 <<< 16) 5).1 = [Event.Unknown] := by
  constructor
  · exact (c10_classifier_totality regNone 0 999 0 0).2.2.2.1 (by decide)
  · refine ((c10_classifier_totality regBtn 7 WM_COMMAND (99 <<< 16) 5).2.2.2.2
      rfl).mpr ?_
    rintro ⟨d, hd, hm⟩
    rw [show regBtn 5 = some dataBtn from rfl] at hd
    injection hd with h
    subst h
    simp only [dataBtn, matchedCommand] at hm
    rcases hm with h | h | h <;> exact absurd h (by decide)

end Sysproc
